import Mathlib

/-!
Shallow embedding of `src/resources/scripts/components/server/console/Console.tsx`.

The component owns: a persisted command-history list (most-recent-first), an
Int history-navigation index starting at -1, a search-visibility flag, the
terminal contents (modelled as the list of lines written), and a line counter
(`terminalStats.lines`; the `lastUpdate` wall-clock field is real time and is
not modelled).  Timestamps produced by `new Date().toLocaleTimeString()` are
external inputs and are passed in as plain strings.
-/

namespace Console

/-- Modelled from the spec: the `SocketEvent` enum comes from
`@/components/server/events`, which is not under `src/`; the spec lists seven
distinct named event kinds (status change, console output, install output,
transfer logs, transfer status, daemon message, daemon error), so the event
keys are modelled as seven distinct constructors. -/
inductive SocketEvent
  | STATUS
  | CONSOLE_OUTPUT
  | INSTALL_OUTPUT
  | TRANSFER_LOGS
  | TRANSFER_STATUS
  | DAEMON_MESSAGE
  | DAEMON_ERROR
deriving DecidableEq, Repr

/-- Modelled from the spec: `SocketRequest` also lives in
`@/components/server/events` (not under `src/`).  The component emits
`SocketRequest.SEND_LOGS` (the "request logs" request, Console.tsx:259) and a
"send command" request carrying the typed command (Console.tsx:155). -/
inductive SocketRequest
  | SEND_LOGS
  | sendCommand (command : String)
deriving DecidableEq, Repr

/-- The component state owned by Console.tsx (lines 84-87): `history` and
`historyIndex` for command history, `isSearchVisible`, the terminal contents
as the list of lines written so far, and `terminalStats.lines`. -/
structure ConsoleState where
  history : List String
  historyIndex : Int
  isSearchVisible : Bool
  terminalLines : List String
  statsLines : Nat
deriving DecidableEq, Repr

/-- Initial state: `useState(-1)` for the index (Console.tsx:85), the persisted
history loaded by `usePersistedState` (Console.tsx:84), search hidden, empty
terminal, zero lines counted. -/
def initialConsoleState (persistedHistory : List String) : ConsoleState :=
  { history := persistedHistory
    historyIndex := -1
    isSearchVisible := false
    terminalLines := []
    statsLines := 0 }

/-- `TERMINAL_PRELUDE` (Console.tsx:71). -/
def TERMINAL_PRELUDE : String :=
  "\x1b[1m\x1b[38;2;100;255;218mcontainer@pterodactyl~\x1b[0m\x1b[1m\x1b[38;2;136;146;176m ❯\x1b[0m "

/-- JS line terminators recognised by `$` under the `m` regex flag. -/
def isLineTerminatorChar (c : Char) : Bool :=
  c = '\n' || c = '\r' || c = '\u2028' || c = '\u2029'

/-- Whether the JS regex anchor `$` (with the `m` flag) holds at the position
in front of the remaining characters: end of input or before a terminator. -/
def eolAnchorAt (cs : List Char) : Bool :=
  match cs with
  | [] => true
  | c :: _ => isLineTerminatorChar c

/-- One attempt of `(?:\r\n|\r|\n)$` (flags `im`) at the current position:
alternatives are tried in order, each must be followed by a position where
`$` holds; returns the remaining input after the matched terminator.  In the
`'\r' :: '\n'` case the single-`\r` alternative always succeeds when `\r\n$`
fails, because `$` holds just before the `\n`. -/
def matchEolAt (cs : List Char) : Option (List Char) :=
  match cs with
  | '\r' :: '\n' :: rest =>
      if eolAnchorAt rest then some rest else some ('\n' :: rest)
  | '\r' :: rest => if eolAnchorAt rest then some rest else none
  | '\n' :: rest => if eolAnchorAt rest then some rest else none
  | _ => none

/-- Replace the leftmost match of `(?:\r\n|\r|\n)$/im` with the empty string
(the `.replace(..., '')` at Console.tsx:90 and Console.tsx:111). -/
def replaceFirstEolAux : List Char → List Char
  | [] => []
  | c :: rest =>
    match matchEolAt (c :: rest) with
    | some r => r
    | none => c :: replaceFirstEolAux rest

/-- `line.replace(/(?:\r\n|\r|\n)$/im, '')`. -/
def stripEol (s : String) : String :=
  String.mk (replaceFirstEolAux s.data)

/-- `handleConsoleOutput` (Console.tsx:89-92): writes one line (optionally
prefixed with the prelude, trailing newline stripped, reset suffix appended)
and increments the stats line counter. -/
def handleConsoleOutput (line : String) (prelude : Bool) (st : ConsoleState) : ConsoleState :=
  { st with
    terminalLines := st.terminalLines ++
      [(if prelude then TERMINAL_PRELUDE else "") ++ stripEol line ++ "\x1b[0m"]
    statsLines := st.statsLines + 1 }

/-- `handleTransferStatus` (Console.tsx:94-107): a switch over the status
string with cases for "failure", "archive" and "success" only; any other
status falls through the switch and nothing happens. -/
def handleTransferStatus (timestamp status : String) (st : ConsoleState) : ConsoleState :=
  if status = "failure" then
    { st with terminalLines := st.terminalLines ++
        [timestamp ++ TERMINAL_PRELUDE ++ "\x1b[31m❌ Transfer has failed.\x1b[0m"] }
  else if status = "archive" then
    { st with terminalLines := st.terminalLines ++
        [timestamp ++ TERMINAL_PRELUDE ++ "\x1b[36m📦 Server has been archived successfully, attempting connection to target node...\x1b[0m"] }
  else if status = "success" then
    { st with terminalLines := st.terminalLines ++
        [timestamp ++ TERMINAL_PRELUDE ++ "\x1b[32m✅ Transfer completed successfully.\x1b[0m"] }
  else st

/-- `handleDaemonErrorOutput` (Console.tsx:109-112). -/
def handleDaemonErrorOutput (timestamp line : String) (st : ConsoleState) : ConsoleState :=
  { st with terminalLines := st.terminalLines ++
      [timestamp ++ TERMINAL_PRELUDE ++ "\x1b[1m\x1b[41m🚨 " ++ stripEol line ++ "\x1b[0m"] }

/-- `handlePowerChangeEvent` (Console.tsx:114-118). -/
def handlePowerChangeEvent (timestamp state : String) (st : ConsoleState) : ConsoleState :=
  { st with terminalLines := st.terminalLines ++
      [timestamp ++ TERMINAL_PRELUDE ++
        (if state = "starting" then "🚀"
         else if state = "running" then "✅"
         else if state = "stopping" then "⏸️" else "🛑") ++
        " Server marked as \x1b[1m" ++ state ++ "\x1b[0m..."] }

/-- The Tab-completion candidates (Console.tsx:139). -/
def completions : List String :=
  ["help", "status", "stop", "start", "restart", "say", "list"]

/-- `history![i] || ''` (Console.tsx:124, 131): a negative or out-of-range
index yields `undefined`, which `|| ''` turns into the empty string. -/
def historyLookup (history : List String) (i : Int) : String :=
  if 0 ≤ i then history.getD i.toNat "" else ""

/-- Result of one `handleCommandKeyDown` invocation: the component state
afterwards, the input element value afterwards (the handler mutates
`e.currentTarget.value`), the requests sent on the socket, and whether
`e.preventDefault()` was called. -/
structure KeyDownResult where
  state : ConsoleState
  inputValue : String
  requests : List SocketRequest
  prevented : Bool
deriving DecidableEq, Repr

/-- `handleCommandKeyDown` (Console.tsx:120-158), translated block by block:
ArrowUp clamps the index up with `Math.min(historyIndex + 1, history.length - 1)`
and loads that entry into the input; ArrowDown clamps down with
`Math.max(historyIndex - 1, -1)`; Tab completes the current value from
`completions` (`cmd.startsWith(current.toLowerCase())`); Enter with a
non-empty value echoes the command to the terminal, prepends it to the
history truncated to 50 entries, resets the index to -1, sends
`'send command'` when an instance is present, and clears the input.
`inst` is the truthiness of `instance` at Console.tsx:155; `timestamp` is the
formatted wall-clock string of Console.tsx:149. -/
def handleCommandKeyDown (inst : Bool) (timestamp key value0 : String)
    (st : ConsoleState) : KeyDownResult :=
  let up := key = "ArrowUp"
  let idx1 := if up then min (st.historyIndex + 1) ((st.history.length : Int) - 1)
              else st.historyIndex
  let val1 := if up then historyLookup st.history idx1 else value0
  let down := key = "ArrowDown"
  let idx2 := if down then max (st.historyIndex - 1) (-1) else idx1
  let val2 := if down then historyLookup st.history idx2 else val1
  let tab := key = "Tab"
  let val3 :=
    if tab then
      if val2.trim ≠ "" then
        match completions.find? (fun cmd => cmd.startsWith val2.toLower) with
        | some m => m
        | none => val2
      else val2
    else val2
  let prevented := up || tab
  let command := val3
  if key = "Enter" ∧ command.length > 0 then
    { state :=
        { st with
          terminalLines := st.terminalLines ++
            [timestamp ++ TERMINAL_PRELUDE ++ "\x1b[36m➜\x1b[0m " ++ command]
          history := (command :: st.history).take 50
          historyIndex := -1 }
      inputValue := ""
      requests := if inst then [SocketRequest.sendCommand command] else []
      prevented := prevented }
  else
    { state := { st with historyIndex := idx2 }
      inputValue := val3
      requests := []
      prevented := prevented }

/-- `clearTerminal` (Console.tsx:160-163). -/
def clearTerminal (st : ConsoleState) : ConsoleState :=
  { st with terminalLines := [], statsLines := 0 }

/-- `copyTerminalContent` (Console.tsx:165-180).  External collaborators are
inputs: `selection` is `terminal.getSelection()` (empty string when nothing is
selected), `firstLine` is `terminal.buffer.active.getLine(0)?.translateToString()`
(`none` when there is no line), `clipboard` is `navigator.clipboard.writeText`,
whose rejection the `catch` turns into a `console.error` log.  The result is
the component state (never touched), the list of console-error log entries,
and whether the success notification was shown.  The function is total: the
`try`/`catch` never lets the clipboard error escape. -/
def copyTerminalContent (selection : String) (firstLine : Option String)
    (clipboard : String → Except String Unit) (st : ConsoleState) :
    ConsoleState × List String × Bool :=
  let content := if selection ≠ "" then some selection else firstLine
  match content with
  | some c =>
    if c ≠ "" then
      match clipboard c with
      | Except.ok _ => (st, [], true)
      | Except.error e => (st, ["Failed to copy: " ++ e], false)
    else (st, [], false)
  | none => (st, [], false)

/-- The invariant the spec states for the history-navigation index:
`index ∈ [-1, length-1]` (and for the empty history, `[-1, -1]`). -/
def historyIndexInv (st : ConsoleState) : Prop :=
  -1 ≤ st.historyIndex ∧ st.historyIndex ≤ (st.history.length : Int) - 1

/-- The listener functions the `listeners` record (Console.tsx:239-247) stores,
identified by JS reference: `handlePowerChangeEvent`, `handleConsoleOutput`
(stored under three keys), `handleTransferStatus`, `handleDaemonErrorOutput`,
and the arrow function `(line) => handleConsoleOutput(line, true)` created for
`DAEMON_MESSAGE` (a distinct reference, shared between `addListener` and
`removeListener` because both read the same captured record). -/
inductive HandlerRef
  | powerChangeEvent
  | consoleOutput
  | daemonMessageArrow
  | transferStatus
  | daemonErrorOutput
deriving DecidableEq, Repr

/-- The `listeners` record (Console.tsx:239-247) as an association list in
object-literal key order; the seven keys are distinct, so `Object.keys`
enumerates exactly these pairs. -/
def listeners : List (SocketEvent × HandlerRef) :=
  [(SocketEvent.STATUS, HandlerRef.powerChangeEvent),
   (SocketEvent.CONSOLE_OUTPUT, HandlerRef.consoleOutput),
   (SocketEvent.INSTALL_OUTPUT, HandlerRef.consoleOutput),
   (SocketEvent.TRANSFER_LOGS, HandlerRef.consoleOutput),
   (SocketEvent.TRANSFER_STATUS, HandlerRef.transferStatus),
   (SocketEvent.DAEMON_MESSAGE, HandlerRef.daemonMessageArrow),
   (SocketEvent.DAEMON_ERROR, HandlerRef.daemonErrorOutput)]

/-- Semantics of invoking a stored listener on a payload (none of the handlers
ever calls `instance.send`, so the codomain carries no requests). -/
def handlerStep : HandlerRef → String → String → ConsoleState → ConsoleState
  | HandlerRef.powerChangeEvent, ts, payload, st => handlePowerChangeEvent ts payload st
  | HandlerRef.consoleOutput, _, payload, st => handleConsoleOutput payload false st
  | HandlerRef.daemonMessageArrow, _, payload, st => handleConsoleOutput payload true st
  | HandlerRef.transferStatus, ts, payload, st => handleTransferStatus ts payload st
  | HandlerRef.daemonErrorOutput, ts, payload, st => handleDaemonErrorOutput ts payload st

/-- The subscription list held by the connection instance: one entry per
`addListener` call still outstanding.  `addListener` appends. -/
def addListener (subs : List (SocketEvent × HandlerRef)) (kh : SocketEvent × HandlerRef) :
    List (SocketEvent × HandlerRef) :=
  subs ++ [kh]

/-- `removeListener` drops one outstanding subscription matching the given
event and handler reference (the first match, if any). -/
def removeListener (subs : List (SocketEvent × HandlerRef)) (kh : SocketEvent × HandlerRef) :
    List (SocketEvent × HandlerRef) :=
  subs.erase kh

/-- The `Object.keys(listeners).forEach(... addListener ...)` loop
(Console.tsx:256-258). -/
def effectSubscribe (subs : List (SocketEvent × HandlerRef)) :
    List (SocketEvent × HandlerRef) :=
  listeners.foldl addListener subs

/-- The cleanup's `Object.keys(listeners).forEach(... removeListener ...)` loop
(Console.tsx:268-272): same record, same key order, same handler references. -/
def effectUnsubscribe (subs : List (SocketEvent × HandlerRef)) :
    List (SocketEvent × HandlerRef) :=
  listeners.foldl removeListener subs

/-- The outcome of one run of the listeners `useEffect` body
(Console.tsx:238-275). -/
structure ListenersEffectRun where
  state : ConsoleState
  subs : List (SocketEvent × HandlerRef)
  requests : List SocketRequest
  hasCleanup : Bool
deriving Repr

/-- The listeners `useEffect` body (Console.tsx:238-275): when `connected` and
`instance` are both truthy it clears the terminal and prints the reconnect
banner unless a transfer is in progress, registers all seven listeners, sends
exactly one `SEND_LOGS` request, and returns a cleanup; otherwise it does
nothing and returns no cleanup.  (The stats interval only refreshes the
unmodelled `lastUpdate` timestamp.) -/
def listenersEffect (connected inst isTransferring : Bool) (st : ConsoleState)
    (subs : List (SocketEvent × HandlerRef)) : ListenersEffectRun :=
  if connected && inst then
    let st1 := if !isTransferring then
        { st with terminalLines := ["\x1b[36m● Terminal connected - Loading logs...\x1b[0m\n"] }
      else st
    { state := st1
      subs := effectSubscribe subs
      requests := [SocketRequest.SEND_LOGS]
      hasCleanup := true }
  else
    { state := st, subs := subs, requests := [], hasCleanup := false }

/-- Whether the command input (and with it `onKeyDown`) is rendered at all:
the render guard `canSendCommands && (...)` at Console.tsx:381. -/
def commandInputRendered (canSendCommands : Bool) : Bool :=
  canSendCommands

/-- A session-level view of the component: its console state, the outstanding
subscriptions on the connection instance, and the current `connected` /
`instance` flags from the socket store. -/
structure SessionState where
  console : ConsoleState
  subs : List (SocketEvent × HandlerRef)
  connected : Bool
  inst : Bool
deriving Repr

/-- The discrete callbacks the component can run: a keystroke in the command
input, a run of the listeners effect (after the store flags change), its
cleanup, delivery of a socket event to the subscribed handlers, and the three
header buttons (clear, copy, search). -/
inductive UIEvent
  | keyDown (timestamp key value : String)
  | effectRun (connected inst isTransferring : Bool)
  | effectCleanup
  | socketMessage (e : SocketEvent) (timestamp payload : String)
  | clearClick
  | copyClick (selection : String) (firstLine : Option String)
      (clipboard : String → Except String Unit)
  | searchClick

/-- `true` exactly on `'send command'` requests. -/
def isSendCommandReq : SocketRequest → Bool
  | SocketRequest.sendCommand _ => true
  | SocketRequest.SEND_LOGS => false

/-- Dispatch one callback.  A keystroke reaches `handleCommandKeyDown` only if
the input is rendered (`canSendCommands`, Console.tsx:381) and enabled
(`disabled={!instance || !connected}`, Console.tsx:401).  A socket event runs
every subscribed handler for that event, in subscription order; handlers send
nothing.  Returns the next session state and the requests sent. -/
def dispatch (canSendCommands : Bool) (st : SessionState) (ev : UIEvent) :
    SessionState × List SocketRequest :=
  match ev with
  | UIEvent.keyDown ts key v =>
    if commandInputRendered canSendCommands && st.inst && st.connected then
      let r := handleCommandKeyDown st.inst ts key v st.console
      ({ st with console := r.state }, r.requests)
    else (st, [])
  | UIEvent.effectRun c i tr =>
    let r := listenersEffect c i tr st.console st.subs
    ({ st with console := r.state, subs := r.subs, connected := c, inst := i }, r.requests)
  | UIEvent.effectCleanup =>
    ({ st with subs := effectUnsubscribe st.subs }, [])
  | UIEvent.socketMessage e ts payload =>
    let c1 := (st.subs.filter (fun kh => kh.1 == e)).foldl
      (fun c kh => handlerStep kh.2 ts payload c) st.console
    ({ st with console := c1 }, [])
  | UIEvent.clearClick =>
    ({ st with console := clearTerminal st.console }, [])
  | UIEvent.copyClick sel fl cb =>
    ({ st with console := (copyTerminalContent sel fl cb st.console).1 }, [])
  | UIEvent.searchClick =>
    ({ st with console := { st.console with isSearchVisible := true } }, [])

/-- Run a whole interaction sequence, collecting every request sent. -/
def runSession (canSendCommands : Bool) (st : SessionState) :
    List UIEvent → SessionState × List SocketRequest
  | [] => (st, [])
  | ev :: evs =>
    let r1 := dispatch canSendCommands st ev
    let r2 := runSession canSendCommands r1.1 evs
    (r2.1, r1.2 ++ r2.2)

/-- Folding `addListener` over a call list adds each pair's multiplicity. -/
theorem count_foldl_addListener (L subs : List (SocketEvent × HandlerRef))
    (kh : SocketEvent × HandlerRef) :
    ((L.foldl addListener subs).count kh) = subs.count kh + L.count kh := by
  induction L generalizing subs with
  | nil => simp
  | cons x xs ih =>
    rw [List.foldl_cons, ih]
    simp only [addListener, List.count_append, List.count_singleton, List.count_cons]
    split_ifs <;> simp_all [beq_iff_eq]
    all_goals omega

/-- Folding `removeListener` over a call list removes each pair's multiplicity. -/
theorem count_foldl_removeListener (L subs : List (SocketEvent × HandlerRef))
    (kh : SocketEvent × HandlerRef) :
    ((L.foldl removeListener subs).count kh) = subs.count kh - L.count kh := by
  induction L generalizing subs with
  | nil => simp
  | cons x xs ih =>
    rw [List.foldl_cons, ih]
    simp only [removeListener, List.count_erase, List.count_cons]
    split_ifs <;> simp_all [beq_iff_eq]
    all_goals omega

/-- C1: pressing Enter with a non-empty input prepends the command to the
history, so the new history is exactly `(command :: h).take 50` — most-recent
first, and its length never exceeds the cap of 50. -/
theorem consoleC1 (inst : Bool) (ts cmd : String) (st : ConsoleState)
    (h : cmd.length > 0) :
    (handleCommandKeyDown inst ts "Enter" cmd st).state.history =
      (cmd :: st.history).take 50 ∧
    (handleCommandKeyDown inst ts "Enter" cmd st).state.history.length ≤ 50 := by
  constructor
  · simp [handleCommandKeyDown, h]
  · simp [handleCommandKeyDown, h, List.length_take]

/-- Witness for C1 at a concrete command and state. -/
theorem consoleC1_witness :
    ("restart".length > 0) ∧
    ((handleCommandKeyDown true "" "Enter" "restart" (initialConsoleState ["stop"])).state.history =
        ("restart" :: (initialConsoleState ["stop"]).history).take 50 ∧
      (handleCommandKeyDown true "" "Enter" "restart" (initialConsoleState ["stop"])).state.history.length ≤ 50) :=
  ⟨by decide, consoleC1 true "" "restart" (initialConsoleState ["stop"]) (by decide)⟩

/-- C2: the history-navigation index starts at -1 and stays in
`[-1, history.length - 1]` under every keydown (ArrowUp clamps up with `min`,
ArrowDown clamps down with `max`, Enter resets to -1), for every history list
including the empty one. -/
theorem consoleC2 :
    (∀ h0 : List String, historyIndexInv (initialConsoleState h0)) ∧
    (∀ inst ts key v st, historyIndexInv st →
      historyIndexInv (handleCommandKeyDown inst ts key v st).state) := by
  constructor
  · intro h0
    refine ⟨le_refl _, ?_⟩
    simp only [initialConsoleState]
    omega
  · intro inst ts key v st h
    obtain ⟨h1, h2⟩ := h
    unfold historyIndexInv
    by_cases hu : key = "ArrowUp" <;> by_cases hd : key = "ArrowDown" <;>
      by_cases ht : key = "Tab" <;> by_cases he : key = "Enter" <;>
      simp_all [handleCommandKeyDown, List.length_take] <;>
      first
        | omega
        | (split_ifs <;> first | omega | (simp_all <;> omega))

/-- Witness for C2 at a concrete state and keydown. -/
theorem consoleC2_witness :
    historyIndexInv (initialConsoleState ["a", "b"]) ∧
    historyIndexInv (handleCommandKeyDown true "" "ArrowUp" "" (initialConsoleState ["a", "b"])).state :=
  ⟨by constructor <;> decide,
   consoleC2.2 true "" "ArrowUp" "" (initialConsoleState ["a", "b"]) (by constructor <;> decide)⟩

/-- C3: the listeners-effect cleanup removes exactly what the effect
registered — it removes, per event key, the same handler reference it added,
so running the cleanup after the subscription loop leaves the connection's
subscription list with exactly its prior contents (and an initially empty
list ends empty). -/
theorem consoleC3 :
    effectUnsubscribe (effectSubscribe []) = [] ∧
    ∀ subs kh, ((effectUnsubscribe (effectSubscribe subs)).count kh) = subs.count kh := by
  refine ⟨rfl, ?_⟩
  intro subs kh
  unfold effectUnsubscribe effectSubscribe
  rw [count_foldl_removeListener, count_foldl_addListener]
  omega

/-- C4: pressing Enter with a non-empty command forwards exactly that string,
unchanged, as the single 'send command' request. -/
theorem consoleC4 (ts cmd : String) (st : ConsoleState) (h : cmd.length > 0) :
    (handleCommandKeyDown true ts "Enter" cmd st).requests =
      [SocketRequest.sendCommand cmd] := by
  simp [handleCommandKeyDown, h]

/-- Witness for C4 at a concrete command. -/
theorem consoleC4_witness :
    ("say hello world".length > 0) ∧
    (handleCommandKeyDown true "" "Enter" "say hello world" (initialConsoleState [])).requests =
      [SocketRequest.sendCommand "say hello world"] :=
  ⟨by decide, consoleC4 "" "say hello world" (initialConsoleState []) (by decide)⟩

/-- Every request a keydown can emit is a 'send command' request. -/
theorem keyDown_requests_sendCommand (inst : Bool) (ts key v : String) (st : ConsoleState) :
    ((handleCommandKeyDown inst ts key v st).requests).all isSendCommandReq = true := by
  by_cases hk : key = "Enter"
  · subst hk
    simp only [handleCommandKeyDown]
    split_ifs <;> simp_all [isSendCommandReq]
  · simp only [handleCommandKeyDown]
    rw [if_neg (fun hc => hk hc.1)]
    rfl

/-- C5: a run of the listeners effect with `connected` and a live instance
sends exactly one `SEND_LOGS` request (and none otherwise), and every other
callback of the component emits either only 'send command' requests (the
input keydown handler) or no requests at all. -/
theorem consoleC5 :
    (∀ tr st subs, (listenersEffect true true tr st subs).requests = [SocketRequest.SEND_LOGS]) ∧
    (∀ c i tr st subs, (listenersEffect c i tr st subs).requests =
      if c && i then [SocketRequest.SEND_LOGS] else []) ∧
    (∀ canSend st ts key v,
      ((dispatch canSend st (UIEvent.keyDown ts key v)).2).all isSendCommandReq = true) ∧
    (∀ canSend st e ts p, (dispatch canSend st (UIEvent.socketMessage e ts p)).2 = []) ∧
    (∀ canSend st, (dispatch canSend st UIEvent.effectCleanup).2 = []) ∧
    (∀ canSend st, (dispatch canSend st UIEvent.clearClick).2 = []) ∧
    (∀ canSend st sel fl cb, (dispatch canSend st (UIEvent.copyClick sel fl cb)).2 = []) ∧
    (∀ canSend st, (dispatch canSend st UIEvent.searchClick).2 = []) := by
  refine ⟨?_, ?_, ?_, fun _ _ _ _ _ => rfl, fun _ _ => rfl, fun _ _ => rfl,
    fun _ _ _ _ _ => rfl, fun _ _ => rfl⟩
  · intro tr st subs
    simp [listenersEffect]
  · intro c i tr st subs
    cases c <;> cases i <;> simp [listenersEffect]
  · intro canSend st ts key v
    simp only [dispatch]
    split
    · exact keyDown_requests_sendCommand st.inst ts key v st.console
    · rfl

/-- With the permission denied, no callback ever emits a 'send command'. -/
theorem dispatch_no_sendCommand (st : SessionState) (ev : UIEvent) :
    ((dispatch false st ev).2).all (fun r => !isSendCommandReq r) = true := by
  cases ev with
  | keyDown ts key v => rfl
  | effectRun c i tr =>
    cases c <;> cases i <;> simp [dispatch, listenersEffect, isSendCommandReq]
  | effectCleanup => rfl
  | socketMessage e ts p => rfl
  | clearClick => rfl
  | copyClick sel fl cb => rfl
  | searchClick => rfl

/-- C6: when the user lacks 'control.console' (`canSendCommands` false), the
command input is not rendered at all, and over every sequence of user
interactions no 'send command' request is ever sent. -/
theorem consoleC6 :
    commandInputRendered false = false ∧
    ∀ st evs, ((runSession false st evs).2).all (fun r => !isSendCommandReq r) = true := by
  refine ⟨rfl, ?_⟩
  intro st evs
  induction evs generalizing st with
  | nil => rfl
  | cons ev evs ih =>
    simp only [runSession, List.all_append, Bool.and_eq_true]
    exact ⟨dispatch_no_sendCommand st ev, ih _⟩

/-- C7: the `listeners` record registers exactly one handler for each of the
seven named socket events — status, console output, install output, transfer
logs, transfer status, daemon message, daemon error — and for no others. -/
theorem consoleC7 :
    listeners.map Prod.fst =
      [SocketEvent.STATUS, SocketEvent.CONSOLE_OUTPUT, SocketEvent.INSTALL_OUTPUT,
       SocketEvent.TRANSFER_LOGS, SocketEvent.TRANSFER_STATUS, SocketEvent.DAEMON_MESSAGE,
       SocketEvent.DAEMON_ERROR] ∧
    listeners.length = 7 ∧
    (∀ e : SocketEvent, ((listeners.map Prod.fst).count e) = 1) := by
  refine ⟨rfl, rfl, ?_⟩
  intro e
  cases e <;> rfl

/-- C8: `copyTerminalContent` never alters component state, and when the
clipboard write fails the error is logged ('Failed to copy: ...') and the
call returns normally with no notification shown. -/
theorem consoleC8 (sel : String) (fl : Option String)
    (cb : String → Except String Unit) (st : ConsoleState) :
    (copyTerminalContent sel fl cb st).1 = st ∧
    (∀ c e, (if sel ≠ "" then some sel else fl) = some c → c ≠ "" →
      cb c = Except.error e →
      copyTerminalContent sel fl cb st = (st, ["Failed to copy: " ++ e], false)) := by
  constructor
  · simp only [copyTerminalContent]
    split
    · split_ifs
      · split <;> rfl
      · rfl
    · rfl
  · intro c e hc hne hcb
    simp only [copyTerminalContent]
    rw [hc]
    simp [hne, hcb]

/-- Witness for C8 at a concrete failing clipboard. -/
theorem consoleC8_witness :
    ((if ("abc" : String) ≠ "" then some "abc" else (none : Option String)) = some "abc") ∧
    (("abc" : String) ≠ "") ∧
    ((fun _ : String => (Except.error "denied" : Except String Unit)) "abc" =
      Except.error "denied") ∧
    copyTerminalContent "abc" none (fun _ => Except.error "denied") (initialConsoleState []) =
      (initialConsoleState [], ["Failed to copy: " ++ "denied"], false) :=
  ⟨by decide, by decide, rfl,
   (consoleC8 "abc" none (fun _ => Except.error "denied") (initialConsoleState [])).2
     "abc" "denied" (by decide) (by decide) rfl⟩

/-- C9: pressing Enter with an empty input changes nothing: same state (same
history, index and terminal), empty input, no requests, no preventDefault. -/
theorem consoleC9 (inst : Bool) (ts : String) (st : ConsoleState) :
    handleCommandKeyDown inst ts "Enter" "" st =
      { state := st, inputValue := "", requests := [], prevented := false } := rfl

/-- C10: the transfer-status handler writes exactly one terminal line for the
statuses 'failure', 'archive' and 'success' (leaving all other component
state untouched), and for any other status string it is the identity. -/
theorem consoleC10 (ts status : String) (st : ConsoleState) :
    (status ≠ "failure" → status ≠ "archive" → status ≠ "success" →
      handleTransferStatus ts status st = st) ∧
    ((status = "failure" ∨ status = "archive" ∨ status = "success") →
      (handleTransferStatus ts status st).terminalLines.length = st.terminalLines.length + 1 ∧
      (handleTransferStatus ts status st).history = st.history ∧
      (handleTransferStatus ts status st).historyIndex = st.historyIndex ∧
      (handleTransferStatus ts status st).isSearchVisible = st.isSearchVisible ∧
      (handleTransferStatus ts status st).statsLines = st.statsLines) := by
  constructor
  · intro h1 h2 h3
    simp [handleTransferStatus, h1, h2, h3]
  · rintro (rfl | rfl | rfl) <;> simp [handleTransferStatus]

/-- Witness for C10 at a concrete unmatched and a concrete matched status. -/
theorem consoleC10_witness :
    handleTransferStatus "" "starting" (initialConsoleState []) = initialConsoleState [] ∧
    (handleTransferStatus "" "failure" (initialConsoleState [])).terminalLines.length =
      (initialConsoleState []).terminalLines.length + 1 :=
  ⟨(consoleC10 "" "starting" (initialConsoleState [])).1 (by decide) (by decide) (by decide),
   ((consoleC10 "" "failure" (initialConsoleState [])).2 (Or.inl rfl)).1⟩

end Console
